import Mathlib

/-!
Shallow embedding of the pwncore container lifecycle orchestrator:
`src/pwncore/routes/ctf/start.py` (provision / teardown routes) and
`src/pwncore/routes/admin.py` (bulk reset `round2`).

Registry tables (tortoise models) are lists of rows; the docker client is
modelled by an oracle `Env` supplying the uuid stream, the container id
assigned to a name, and the ordered port-binding list the runtime reports
for each (container, guest port). Every docker-engine call and registry
mutation issued by a route is recorded in an event trace. Failures of
registry writes are injected through `Inject` flags, mirroring the places
where the Python code catches database exceptions. Since the exception
raised inside a route's `try` block is caught and the route returns
normally, the enclosing `in_transaction()` commits, so the model keeps all
registry writes performed before the failure.
-/

namespace Pwncore

/-- A row of the `Problem` table: id, visibility, image name, and the
ordered guest-port keys of `image_config["PortBindings"]`. -/
structure Problem where
  id : Nat
  visible : Bool
  image_name : String
  portBindings : List String
deriving DecidableEq

/-- A row of the `Container` table (one live instance). -/
structure Container where
  docker_id : String
  team_id : Nat
  problem_id : Nat
  flag : String
deriving DecidableEq

/-- A row of the `Ports` table; the foreign key to its container is
represented by the container's docker id. -/
structure PortRow where
  port : Nat
  container_id : String
deriving DecidableEq

/-- A row of the `R2Problem` table (round-2 problem catalog). -/
structure R2Problem where
  pk : Nat
  image_name : String
  portBindings : List String
deriving DecidableEq

/-- A row of the `MetaTeam` table. -/
structure MetaTeam where
  pk : Nat
  name : String
deriving DecidableEq

/-- A row of the `R2Container` table. -/
structure R2Container where
  docker_id : String
  problem_id : Nat
  meta_team_id : Nat
  flag : String
deriving DecidableEq

/-- A row of the `R2Ports` table. -/
structure R2PortRow where
  port : Nat
  container_id : String
deriving DecidableEq

/-- The persistent registry: one list per table. -/
structure Registry where
  problems : List Problem
  containers : List Container
  ports : List PortRow
  r2problems : List R2Problem
  mteams : List MetaTeam
  r2containers : List R2Container
  r2ports : List R2PortRow
deriving DecidableEq

/-- Docker-engine calls issued by the orchestrator. -/
inductive RtCall where
  | create (name : String)
  | execFlag (id : String)
  | portQuery (id : String) (guest : String)
  | get (id : String)
  | stop (id : String)
  | remove (id : String)
deriving DecidableEq

/-- An observable event: a docker call or a registry mutation. -/
inductive Ev where
  | rt (c : RtCall)
  | regCreateContainer (c : Container)
  | regCreatePort (p : PortRow)
  | regCreateR2Container (c : R2Container)
  | regCreateR2Ports (ps : List R2PortRow)
  | regDelete (team problem : Nat)
  | regDeleteAllContainers
deriving DecidableEq

/-- Whole-system state: registry, uuid-stream cursor, the set of container
ids currently existing in the docker runtime, and the event trace. -/
structure St where
  reg : Registry
  nonce : Nat
  runtime : List String
  trace : List Ev
deriving DecidableEq

/-- Static configuration (`pwncore.config`). -/
structure Config where
  flag : String
  max_containers_per_team : Nat

/-- The external world: `uuid n` is the n-th value of the uuid4 stream,
`newId name` the container id docker assigns to a container of that name,
`bindings cid guest` the ordered binding list (`HostPort` values) the
runtime reports for guest port `guest` of container `cid`. -/
structure Env where
  uuid : Nat → String
  newId : String → String
  bindings : String → String → List Nat

/-- Injected failures of registry writes (the operations whose exceptions
the Python code catches). `portsCreateFails k` makes the k-th
`Ports.create` of a provision call fail. -/
structure Inject where
  containerCreateFails : Bool
  portsCreateFails : Nat → Bool
  deleteFails : Bool

/-- No injected failure. -/
def noInject : Inject := ⟨false, fun _ => false, false⟩

/-- Route results, identified by the `msg_codes` key the route returns
(plus `raised` for an exception escaping the route). -/
inductive Res where
  | ctf_not_found
  | container_already_running (ports : List Nat) (ctf_id : Nat)
  | container_limit_reached
  | db_error
  | container_start (ports : List Nat) (ctf_id : Nat)
  | container_not_found
  | container_stop
  | raised
deriving DecidableEq

/-- The container name `f"{team_id}_{ctf_id}_{uuid.uuid4().hex}"` built by
`start_docker_container`, with the uuid stream at cursor `nonce`. -/
def provisionName (env : Env) (team_id ctf_id nonce : Nat) : String :=
  toString team_id ++ "_" ++ toString ctf_id ++ "_" ++ env.uuid nonce

/-- The docker id the runtime assigns to the container provisioned with the
uuid stream at cursor `nonce`. -/
def provisionCid (env : Env) (team_id ctf_id nonce : Nat) : String :=
  env.newId (provisionName env team_id ctf_id nonce)

/-- The flag `f"{config.flag}{{{uuid.uuid4().hex}}}"` built by
`start_docker_container`. -/
def provisionFlag (cfg : Config) (env : Env) (nonce : Nat) : String :=
  cfg.flag ++ "\x7b" ++ env.uuid (nonce + 1) ++ "\x7d"

/-- The host port provision records for guest port `g` of container `cid`:
entry `[0]` of the runtime's reported binding list. -/
def portOf (env : Env) (cid g : String) : Nat :=
  ((env.bindings cid g).head?).getD 0

/-- The events the port-persisting loop of a successful provision emits:
one port query and one `Ports.create` per declared guest port, in
declaration order. -/
def portEvs (env : Env) (cid : String) : List String → List Ev
  | [] => []
  | g :: gs =>
    .rt (.portQuery cid g) :: .regCreatePort ⟨portOf env cid g, cid⟩ ::
      portEvs env cid gs

/-- Output of the port-persisting loop inside `start_docker_container`. -/
structure LoopOut where
  ok : Bool
  ports : List Nat
  reg : Registry
  trace : List Ev
deriving DecidableEq

/-- The loop `for guest_port in ctf.image_config["PortBindings"]` of
`start_docker_container`: query the runtime for the guest port's bindings,
take entry `[0]` (an empty list raises `IndexError`), append the host port
to the response list and persist a `Ports` row. `ok = false` records that
an exception was raised; the registry rows written before the failure are
kept (the transaction commits, see module comment). -/
def portLoop (env : Env) (inj : Inject) (cid : String) :
    List String → Nat → List Nat → Registry → List Ev → LoopOut
  | [], _, acc, reg, tr => ⟨true, acc, reg, tr⟩
  | g :: gs, k, acc, reg, tr =>
    let tr1 := tr ++ [.rt (.portQuery cid g)]
    match (env.bindings cid g).head? with
    | none => ⟨false, acc, reg, tr1⟩
    | some port =>
      if inj.portsCreateFails k then
        ⟨false, acc ++ [port], reg, tr1⟩
      else
        portLoop env inj cid gs (k + 1) (acc ++ [port])
          { reg with ports := reg.ports ++ [⟨port, cid⟩] }
          (tr1 ++ [.regCreatePort ⟨port, cid⟩])

/-- `POST /{ctf_id}/start` (`start_docker_container`): the provision
operation. Faithful to `src/pwncore/routes/ctf/start.py` lines 30-110:
look up a visible problem; if a `Container` row for (team, ctf) exists
return its ports with `container_already_running`; if the team's container
count is at the quota return `container_limit_reached`; otherwise create
the runtime container, inject the flag, and inside a try block create the
`Container` row and one `Ports` row per guest port; on a caught exception
stop and delete the runtime container and return `db_error`. -/
def start_docker_container (cfg : Config) (env : Env) (inj : Inject)
    (team_id ctf_id : Nat) (s : St) : Res × St :=
  match (s.reg.problems.filter fun p => p.id == ctf_id && p.visible).head? with
  | none => (.ctf_not_found, s)
  | some ctf =>
    match s.reg.containers.find? fun c =>
        c.team_id == team_id && c.problem_id == ctf_id with
    | some tc =>
      let ports := (s.reg.ports.filter fun pr =>
        pr.container_id == tc.docker_id).map (·.port)
      (.container_already_running ports ctf_id, s)
    | none =>
      if cfg.max_containers_per_team ≤
          (s.reg.containers.filter fun c => c.team_id == team_id).length then
        (.container_limit_reached, s)
      else
        let container_name := provisionName env team_id ctf_id s.nonce
        let container_flag := provisionFlag cfg env s.nonce
        let cid := env.newId container_name
        let s1 : St :=
          { reg := s.reg, nonce := s.nonce + 2, runtime := cid :: s.runtime,
            trace := s.trace ++ [.rt (.create container_name), .rt (.execFlag cid)] }
        if inj.containerCreateFails then
          (.db_error,
            { s1 with
              trace := s1.trace ++ [.rt (.stop cid), .rt (.remove cid)],
              runtime := s1.runtime.erase cid })
        else
          let dbc : Container := ⟨cid, team_id, ctf_id, container_flag⟩
          let reg2 := { s1.reg with containers := s1.reg.containers ++ [dbc] }
          let tr2 := s1.trace ++ [.regCreateContainer dbc]
          let out := portLoop env inj cid ctf.portBindings 0 [] reg2 tr2
          if out.ok then
            (.container_start out.ports ctf_id,
              { s1 with reg := out.reg, trace := out.trace })
          else
            (.db_error,
              { s1 with
                reg := out.reg,
                trace := out.trace ++ [.rt (.stop cid), .rt (.remove cid)],
                runtime := s1.runtime.erase cid })

/-- `POST /{ctf_id}/stop` (`stop_docker_container`): teardown. Faithful to
`start.py` lines 136-163: look up the problem (visibility ignored); look
up the pair's `Container` row; delete the registry rows first (a failure
returns `db_error` with no runtime call); then `get`, `stop`, `delete` the
runtime container. A docker `get` on an id the runtime no longer holds
raises; the exception escapes the route, so `in_transaction()` rolls the
registry deletion back and the route yields `raised`. -/
def stop_docker_container (inj : Inject) (team_id ctf_id : Nat) (s : St) :
    Res × St :=
  match (s.reg.problems.filter fun p => p.id == ctf_id).head? with
  | none => (.ctf_not_found, s)
  | some _ =>
    match s.reg.containers.find? fun c =>
        c.team_id == team_id && c.problem_id == ctf_id with
    | none => (.container_not_found, s)
    | some tc =>
      if inj.deleteFails then
        (.db_error, s)
      else if tc.docker_id ∈ s.runtime then
        let victims := s.reg.containers.filter fun c =>
          c.team_id == team_id && c.problem_id == ctf_id
        let reg1 := { s.reg with
          containers := s.reg.containers.filter fun c =>
            !(c.team_id == team_id && c.problem_id == ctf_id),
          ports := s.reg.ports.filter fun pr =>
            !(victims.any fun v => v.docker_id == pr.container_id) }
        (.container_stop,
          { s with
            reg := reg1,
            trace := s.trace ++ [.regDelete team_id ctf_id,
              .rt (.get tc.docker_id), .rt (.stop tc.docker_id),
              .rt (.remove tc.docker_id)],
            runtime := s.runtime.erase tc.docker_id })
      else
        (.raised,
          { s with
            trace := s.trace ++ [.regDelete team_id ctf_id,
              .rt (.get tc.docker_id)] })

/-- The runtime-cleanup loop of `POST /stopall` (`stopall_docker_container`
lines 128-131): sequentially `get`, `stop`, `delete` each container of the
team. A docker `get` on a missing id raises, aborting the loop (`ok =
false`). -/
def stopallLoop : List Container → St → Bool × St
  | [], s => (true, s)
  | c :: cs, s =>
    if c.docker_id ∈ s.runtime then
      stopallLoop cs
        { s with
          trace := s.trace ++ [.rt (.get c.docker_id),
            .rt (.stop c.docker_id), .rt (.remove c.docker_id)],
          runtime := s.runtime.erase c.docker_id }
    else
      (false, { s with trace := s.trace ++ [.rt (.get c.docker_id)] })

/-- `POST /stopall` (`stopall_docker_container`, `start.py` lines 113-133):
read the team's containers, delete their registry rows (a failure returns
`db_error` with no runtime call), then stop each runtime container one
after the other. An exception in the loop escapes the route, so the
transaction rolls the registry deletion back and the route yields
`raised`. -/
def stopall_docker_container (inj : Inject) (team_id : Nat) (s : St) :
    Res × St :=
  let cs := s.reg.containers.filter fun c => c.team_id == team_id
  if inj.deleteFails then
    (.db_error, s)
  else
    let reg1 := { s.reg with
      containers := s.reg.containers.filter fun c => !(c.team_id == team_id),
      ports := s.reg.ports.filter fun pr =>
        !(cs.any fun v => v.docker_id == pr.container_id) }
    let s1 := { s with reg := reg1, trace := s.trace ++ [.regDelete team_id 0] }
    match stopallLoop cs s1 with
    | (true, s2) => (.container_stop, s2)
    | (false, s2) => (.raised, { s2 with reg := s.reg })

/-- `_del_cont` (`admin.py` lines 39-42): `get`, `stop`, `delete` one
runtime container. No exception handling: a docker `get` on a missing id
raises out of the task (`false`). -/
def _del_cont (id : String) (s : St) : Bool × St :=
  if id ∈ s.runtime then
    (true,
      { s with
        trace := s.trace ++ [.rt (.get id), .rt (.stop id), .rt (.remove id)],
        runtime := s.runtime.erase id })
  else
    (false, { s with trace := s.trace ++ [.rt (.get id)] })

/-- Injected failures for the round-2 provision phase: whether
`docker_client.containers.run` fails for the `_create_container` task of a
given (problem pk, meta-team pk) pair. -/
structure R2Inject where
  runFails : Nat → Nat → Bool

/-- The port-collecting loop of `_create_container` (`admin.py` lines
72-76): query bindings for each guest port, take entry `[0]`; an empty
binding list raises `IndexError` (`none`). -/
def r2PortRows (env : Env) (cid : String) :
    List String → List R2PortRow → Option (List R2PortRow)
  | [], acc => some acc
  | g :: gs, acc =>
    match (env.bindings cid g).head? with
    | none => none
    | some p => r2PortRows env cid gs (acc ++ [⟨p, cid⟩])

/-- Trace of the port queries the loop issues before failing or
finishing. -/
def r2PortQueries (env : Env) (cid : String) : List String → List Ev
  | [] => []
  | g :: gs =>
    match (env.bindings cid g).head? with
    | none => [.rt (.portQuery cid g)]
    | some _ => .rt (.portQuery cid g) :: r2PortQueries env cid gs

/-- `_create_container` (`admin.py` lines 45-84): one provision unit of the
round-2 fan-out. Everything sits in a try block: run the container, inject
the flag, create the `R2Container` row, collect the port rows, bulk-create
them. Any exception is caught at the function boundary: the runtime
container, if bound, is stopped and removed (a `NameError` from an unbound
`container` is swallowed by the inner bare except) and the error is
logged. The function never raises; since `@atomic()` commits whenever the
function returns normally, registry rows written before a failure are
kept. -/
def _create_container (cfg : Config) (env : Env) (inj : R2Inject)
    (prob : R2Problem) (mteam : MetaTeam) (s : St) : St :=
  let name := mteam.name ++ "_" ++ toString prob.pk ++ "_" ++ env.uuid s.nonce
  if inj.runFails prob.pk mteam.pk then
    { s with nonce := s.nonce + 1, trace := s.trace ++ [.rt (.create name)] }
  else
    let cid := env.newId name
    let container_flag :=
      cfg.flag ++ "\x7b" ++ env.uuid (s.nonce + 1) ++ "\x7d"
    let dbc : R2Container := ⟨cid, prob.pk, mteam.pk, container_flag⟩
    let s1 : St :=
      { reg := { s.reg with r2containers := s.reg.r2containers ++ [dbc] },
        nonce := s.nonce + 2,
        runtime := cid :: s.runtime,
        trace := s.trace ++ [.rt (.create name), .rt (.execFlag cid),
          .regCreateR2Container dbc] ++ r2PortQueries env cid prob.portBindings }
    match r2PortRows env cid prob.portBindings [] with
    | some rows =>
      { s1 with
        reg := { s1.reg with r2ports := s1.reg.r2ports ++ rows },
        trace := s1.trace ++ [.regCreateR2Ports rows] }
    | none =>
      { s1 with
        trace := s1.trace ++ [.rt (.stop cid), .rt (.remove cid)],
        runtime := s1.runtime.erase cid }

/-- Phase 1 of `round2`: one `_del_cont` task per registered container
(`asyncio.TaskGroup`, `admin.py` lines 91-93). The model runs every unit
and reports whether all succeeded; on a failure the TaskGroup raises an
ExceptionGroup out of `round2` (siblings may additionally be cancelled,
which only removes sibling runtime calls and does not affect the abort). -/
def delPhase : List Container → St → Bool × St
  | [], s => (true, s)
  | c :: cs, s =>
    let r1 := _del_cont c.docker_id s
    let r2 := delPhase cs r1.2
    (r1.1 && r2.1, r2.2)

/-- `itertools.product problems mteams`: all pairs, problems outermost. -/
def prodPairs (ps : List R2Problem) (ts : List MetaTeam) :
    List (R2Problem × MetaTeam) :=
  ps.flatMap fun p => ts.map fun t => (p, t)

/-- Phase 2 of `round2`: one `_create_container` task per pair (`admin.py`
lines 105-107). Units never raise, so the TaskGroup always joins; the
model runs them in product order. -/
def provPhase (cfg : Config) (env : Env) (inj : R2Inject) :
    List (R2Problem × MetaTeam) → St → St
  | [], s => s
  | pm :: rest, s =>
    provPhase cfg env inj rest (_create_container cfg env inj pm.1 pm.2 s)

/-- Result of `GET /admin/round2`. -/
inductive R2Res where
  | ok
  | db_error
  | raised
deriving DecidableEq

/-- `GET /admin/round2` (`admin.py` lines 87-107): phase 1 tears down every
registered container concurrently; a unit failure propagates out of the
TaskGroup, aborting the rest of the route (`raised`). Then
`Container.all().delete()` clears the registry (cascading the port rows);
a failure there returns `db_error`. Phase 2 creates one container per
(problem, meta-team) pair of the round-2 catalog. -/
def round2 (cfg : Config) (env : Env) (inj : R2Inject)
    (deleteAllFails : Bool) (s : St) : R2Res × St :=
  let del := delPhase s.reg.containers s
  if !del.1 then
    (.raised, del.2)
  else if deleteAllFails then
    (.db_error, del.2)
  else
    let s2 := { del.2 with
      reg := { del.2.reg with containers := [], ports := [] },
      trace := del.2.trace ++ [.regDeleteAllContainers] }
    (.ok, provPhase cfg env inj (prodPairs s2.reg.r2problems s2.reg.mteams) s2)

/-- Is an event a docker `create` call? -/
def isCreateEv : Ev → Bool
  | .rt (.create _) => true
  | _ => false

/-- Is an event any docker-engine call? -/
def isRtEv : Ev → Bool
  | .rt _ => true
  | _ => false

/-- Is an event a docker call that mutates the runtime (stop/remove)? -/
def isRtMutEv : Ev → Bool
  | .rt (.stop _) => true
  | .rt (.remove _) => true
  | _ => false

/-- Is an event a registry deletion? -/
def isRegDeleteEv : Ev → Bool
  | .regDelete _ _ => true
  | .regDeleteAllContainers => true
  | _ => false

/-- The registry's uniqueness invariant: at most one `Container` row per
(team, problem) pair. -/
def containersUnique (cs : List Container) : Prop :=
  ∀ c ∈ cs,
    (cs.filter fun d =>
      d.team_id == c.team_id && d.problem_id == c.problem_id).length ≤ 1

/-- The state a successful provision call leaves behind: one new
`Container` row, its `Ports` rows, the docker container in the runtime,
and the create/exec/persist events appended to the trace. -/
def postProvisionSt (cfg : Config) (env : Env) (team_id ctf_id : Nat)
    (s : St) (ctf : Problem) : St :=
  { reg := { s.reg with
      containers := s.reg.containers ++
        [⟨provisionCid env team_id ctf_id s.nonce, team_id, ctf_id,
          provisionFlag cfg env s.nonce⟩],
      ports := s.reg.ports ++ ctf.portBindings.map fun g =>
        ⟨portOf env (provisionCid env team_id ctf_id s.nonce) g,
          provisionCid env team_id ctf_id s.nonce⟩ },
    nonce := s.nonce + 2,
    runtime := provisionCid env team_id ctf_id s.nonce :: s.runtime,
    trace := s.trace ++
      [.rt (.create (provisionName env team_id ctf_id s.nonce)),
       .rt (.execFlag (provisionCid env team_id ctf_id s.nonce)),
       .regCreateContainer ⟨provisionCid env team_id ctf_id s.nonce,
         team_id, ctf_id, provisionFlag cfg env s.nonce⟩] ++
      portEvs env (provisionCid env team_id ctf_id s.nonce) ctf.portBindings }

/-! ### Concrete scenario used to exercise the model -/

/-- A small configuration: flag prefix `pwn`, two containers per team. -/
def sampleCfg : Config := ⟨"pwn", 2⟩

/-- A deterministic world: uuid stream `u0, u1, ...`, docker ids derived
from the container name, and every guest port bound to host port 4000. -/
def sampleEnv : Env :=
  ⟨fun n => "u" ++ toString n, fun nm => "id_" ++ nm, fun _ _ => [4000]⟩

/-- A visible problem with one declared guest port. -/
def sampleProblem : Problem := ⟨1, true, "img", ["22/tcp"]⟩

/-- An empty deployment holding only the sample problem. -/
def sampleSt : St := ⟨⟨[sampleProblem], [], [], [], [], [], []⟩, 0, [], []⟩

/-- Team 7 already holds two instances (problems 2 and 3), putting it at
`sampleCfg`'s quota. -/
def quotaSt : St :=
  ⟨⟨[sampleProblem], [⟨"x", 7, 2, "f1"⟩, ⟨"y", 7, 3, "f2"⟩], [], [], [],
    [], []⟩, 0, ["x", "y"], []⟩

/-- Team 7 holds one live instance of the sample problem, with its port
row and its runtime container. -/
def teardownSt : St :=
  ⟨⟨[sampleProblem], [⟨"x", 7, 1, "f1"⟩], [⟨4000, "x"⟩], [], [], [], []⟩,
    0, ["x"], []⟩

/-- Injected failure of `Container.create`. -/
def createFailInj : Inject := ⟨true, fun _ => false, false⟩

/-- Injected failure of every `Ports.create`. -/
def portsFailInj : Inject := ⟨false, fun _ => true, false⟩

/-- Injected failure of the registry delete of a teardown. -/
def deleteFailInj : Inject := ⟨false, fun _ => false, true⟩

/-- Two registered containers of which only `b` still exists in the
runtime: the `_del_cont` task for `a` raises. Round-2 catalog nonempty. -/
def crashSt : St :=
  ⟨⟨[], [⟨"a", 1, 1, "fa"⟩, ⟨"b", 1, 2, "fb"⟩], [],
    [⟨1, "img", ["22/tcp"]⟩], [⟨1, "T"⟩], [], []⟩, 0, ["b"], []⟩

/-- No injected round-2 provision failure. -/
def noR2Fail : R2Inject := ⟨fun _ _ => false⟩

/-- A clean state with a 2×2 round-2 catalog. -/
def r2St : St :=
  ⟨⟨[], [], [], [⟨1, "i1", ["22/tcp"]⟩, ⟨2, "i2", ["80/tcp"]⟩],
    [⟨1, "T"⟩, ⟨2, "U"⟩], [], []⟩, 0, [], []⟩

/-- Exactly the `_create_container` task of (problem 1, meta-team 2) is
made to fail at `docker_client.containers.run`. -/
def oneFailInj : R2Inject := ⟨fun p t => p == 1 && t == 2⟩

/-! ### Lemmas about the port-persisting loop -/

/-- With no injected persistence failure and a nonempty binding list for
every guest port, the loop succeeds and records exactly the first reported
binding of each guest port, in declaration order. -/
lemma portLoop_ok_eq (env : Env) (inj : Inject) (cid : String)
    (hinj : ∀ j, inj.portsCreateFails j = false) :
    ∀ (gs : List String) (k : Nat) (acc : List Nat) (reg : Registry)
      (tr : List Ev), (∀ g ∈ gs, env.bindings cid g ≠ []) →
      portLoop env inj cid gs k acc reg tr =
        ⟨true, acc ++ gs.map (portOf env cid),
          { reg with
            ports := reg.ports ++ gs.map fun g => ⟨portOf env cid g, cid⟩ },
          tr ++ portEvs env cid gs⟩
  | [], _, acc, reg, tr, _ => by
    simp [portLoop, portEvs]
  | g :: gs, k, acc, reg, tr, hb => by
    have hg : env.bindings cid g ≠ [] := hb g (by simp)
    obtain ⟨p, hp⟩ : ∃ p, (env.bindings cid g).head? = some p := by
      cases hhd : (env.bindings cid g).head? with
      | none => exact absurd (List.head?_eq_none_iff.mp hhd) hg
      | some p => exact ⟨p, rfl⟩
    have hpo : portOf env cid g = p := by simp [portOf, hp]
    have hcond : ¬(inj.portsCreateFails k = true) := by simp [hinj k]
    have ih := portLoop_ok_eq env inj cid hinj gs (k + 1) (acc ++ [p])
      { reg with ports := reg.ports ++ [⟨p, cid⟩] }
      ((tr ++ [.rt (.portQuery cid g)]) ++ [.regCreatePort ⟨p, cid⟩])
      (fun g' hg' => hb g' (by simp [hg']))
    simp only [portLoop, hp]
    rw [if_neg hcond, ih]
    simp [portEvs, hpo, List.append_assoc]

/-- The loop never touches the problem or container tables and only ever
appends port queries and `Ports.create` events to the trace. -/
lemma portLoop_preserves (env : Env) (inj : Inject) (cid : String) :
    ∀ (gs : List String) (k : Nat) (acc : List Nat) (reg : Registry)
      (tr : List Ev),
      (portLoop env inj cid gs k acc reg tr).reg.problems = reg.problems ∧
      (portLoop env inj cid gs k acc reg tr).reg.containers = reg.containers ∧
      ∃ extra, (portLoop env inj cid gs k acc reg tr).trace = tr ++ extra ∧
        ∀ e ∈ extra, (∃ c g, e = .rt (.portQuery c g)) ∨
          ∃ pr, e = .regCreatePort pr
  | [], _, acc, reg, tr => by
    refine ⟨rfl, rfl, [], by simp [portLoop], by simp⟩
  | g :: gs, k, acc, reg, tr => by
    cases hp : (env.bindings cid g).head? with
    | none =>
      refine ⟨?_, ?_, [.rt (.portQuery cid g)], ?_, ?_⟩
      · simp [portLoop, hp]
      · simp [portLoop, hp]
      · simp [portLoop, hp]
      · intro e he
        simp only [List.mem_singleton] at he
        exact Or.inl ⟨cid, g, he⟩
    | some p =>
      by_cases hk : inj.portsCreateFails k = true
      · refine ⟨?_, ?_, [.rt (.portQuery cid g)], ?_, ?_⟩
        · simp [portLoop, hp, hk]
        · simp [portLoop, hp, hk]
        · simp [portLoop, hp, hk]
        · intro e he
          simp only [List.mem_singleton] at he
          exact Or.inl ⟨cid, g, he⟩
      · obtain ⟨h1, h2, extra, h3, h4⟩ := portLoop_preserves env inj cid gs
          (k + 1) (acc ++ [p]) { reg with ports := reg.ports ++ [⟨p, cid⟩] }
          ((tr ++ [.rt (.portQuery cid g)]) ++ [.regCreatePort ⟨p, cid⟩])
        have hstep : portLoop env inj cid (g :: gs) k acc reg tr =
            portLoop env inj cid gs (k + 1) (acc ++ [p])
              { reg with ports := reg.ports ++ [⟨p, cid⟩] }
              ((tr ++ [.rt (.portQuery cid g)]) ++ [.regCreatePort ⟨p, cid⟩]) := by
          simp only [portLoop, hp]
          rw [if_neg hk]
        rw [hstep]
        refine ⟨h1, h2,
          .rt (.portQuery cid g) :: .regCreatePort ⟨p, cid⟩ :: extra, ?_, ?_⟩
        · rw [h3]; simp [List.append_assoc]
        · intro e he
          simp only [List.mem_cons] at he
          rcases he with he | he | he
          · exact Or.inl ⟨cid, g, he⟩
          · exact Or.inr ⟨⟨p, cid⟩, he⟩
          · exact h4 e he

/-! ### The provision success path -/

/-- Full characterization of a successful `start_docker_container` call:
problem visible, no instance for the pair, quota not reached, no injected
persistence failure, and a nonempty binding list for every declared guest
port. The call returns the first reported binding of each guest port and
appends exactly one `Container` row, its `Ports` rows, and the
create/exec/query events. -/
lemma start_success (cfg : Config) (env : Env) (inj : Inject)
    (team_id ctf_id : Nat) (s : St) (ctf : Problem)
    (hinj1 : inj.containerCreateFails = false)
    (hinj2 : ∀ j, inj.portsCreateFails j = false)
    (hp : (s.reg.problems.filter fun p =>
      p.id == ctf_id && p.visible).head? = some ctf)
    (hc : s.reg.containers.find? (fun c =>
      c.team_id == team_id && c.problem_id == ctf_id) = none)
    (hq : (s.reg.containers.filter fun c =>
      c.team_id == team_id).length < cfg.max_containers_per_team)
    (hb : ∀ g ∈ ctf.portBindings,
      env.bindings (provisionCid env team_id ctf_id s.nonce) g ≠ []) :
    start_docker_container cfg env inj team_id ctf_id s =
      (.container_start
        (ctf.portBindings.map (portOf env (provisionCid env team_id ctf_id s.nonce)))
        ctf_id,
       postProvisionSt cfg env team_id ctf_id s ctf) := by
  have hcq : ¬(cfg.max_containers_per_team ≤
      (s.reg.containers.filter fun c => c.team_id == team_id).length) :=
    Nat.not_le.mpr hq
  have hloop := portLoop_ok_eq env inj
    (provisionCid env team_id ctf_id s.nonce) hinj2 ctf.portBindings 0 []
    { s.reg with containers := s.reg.containers ++
        [⟨provisionCid env team_id ctf_id s.nonce, team_id, ctf_id,
          provisionFlag cfg env s.nonce⟩] }
    (s.trace ++ [.rt (.create (provisionName env team_id ctf_id s.nonce)),
      .rt (.execFlag (provisionCid env team_id ctf_id s.nonce))] ++
      [.regCreateContainer ⟨provisionCid env team_id ctf_id s.nonce,
        team_id, ctf_id, provisionFlag cfg env s.nonce⟩]) hb
  simp only [start_docker_container, hp, hc]
  rw [if_neg hcq]
  simp only [provisionCid, provisionName, provisionFlag, hinj1,
    Bool.false_eq_true, if_false] at hloop ⊢
  rw [hloop]
  simp [postProvisionSt, provisionCid, provisionName, provisionFlag,
    List.append_assoc]

/-- Registry problems are untouched by a successful provision. -/
lemma postProvision_problems (cfg : Config) (env : Env)
    (team_id ctf_id : Nat) (s : St) (ctf : Problem) :
    (postProvisionSt cfg env team_id ctf_id s ctf).reg.problems =
      s.reg.problems := rfl

/-- The container table after a successful provision. -/
lemma postProvision_containers (cfg : Config) (env : Env)
    (team_id ctf_id : Nat) (s : St) (ctf : Problem) :
    (postProvisionSt cfg env team_id ctf_id s ctf).reg.containers =
      s.reg.containers ++
        [⟨provisionCid env team_id ctf_id s.nonce, team_id, ctf_id,
          provisionFlag cfg env s.nonce⟩] := rfl

/-- The ports table after a successful provision. -/
lemma postProvision_ports (cfg : Config) (env : Env)
    (team_id ctf_id : Nat) (s : St) (ctf : Problem) :
    (postProvisionSt cfg env team_id ctf_id s ctf).reg.ports =
      s.reg.ports ++ ctf.portBindings.map fun g =>
        ⟨portOf env (provisionCid env team_id ctf_id s.nonce) g,
          provisionCid env team_id ctf_id s.nonce⟩ := rfl

/-- The trace after a successful provision. -/
lemma postProvision_trace (cfg : Config) (env : Env)
    (team_id ctf_id : Nat) (s : St) (ctf : Problem) :
    (postProvisionSt cfg env team_id ctf_id s ctf).trace =
      s.trace ++
        [.rt (.create (provisionName env team_id ctf_id s.nonce)),
         .rt (.execFlag (provisionCid env team_id ctf_id s.nonce)),
         .regCreateContainer ⟨provisionCid env team_id ctf_id s.nonce,
           team_id, ctf_id, provisionFlag cfg env s.nonce⟩] ++
        portEvs env (provisionCid env team_id ctf_id s.nonce)
          ctf.portBindings := rfl

/-- If an instance for (team, problem) already exists, provision returns
its registered ports unchanged and performs no action at all. -/
lemma start_already (cfg : Config) (env : Env) (inj : Inject)
    (team_id ctf_id : Nat) (s : St) (ctf : Problem) (tc : Container)
    (hp : (s.reg.problems.filter fun p =>
      p.id == ctf_id && p.visible).head? = some ctf)
    (hc : s.reg.containers.find? (fun c =>
      c.team_id == team_id && c.problem_id == ctf_id) = some tc) :
    start_docker_container cfg env inj team_id ctf_id s =
      (.container_already_running
        ((s.reg.ports.filter fun pr =>
          pr.container_id == tc.docker_id).map (·.port)) ctf_id, s) := by
  simp only [start_docker_container, hp, hc]

/-- The port-loop events contain no docker `create` call. -/
lemma portEvs_countP_create (env : Env) (cid : String) :
    ∀ gs : List String, (portEvs env cid gs).countP isCreateEv = 0
  | [] => by simp [portEvs]
  | g :: gs => by
    simp [portEvs, List.countP_cons, isCreateEv, portEvs_countP_create env cid gs]

/-- Provision either leaves the container table unchanged, or — only when
the in-transaction lookup found no row for the pair — appends exactly the
one new row for (team, problem). -/
lemma start_containers_cases (cfg : Config) (env : Env) (inj : Inject)
    (team_id ctf_id : Nat) (s : St) :
    (start_docker_container cfg env inj team_id ctf_id s).2.reg.containers =
      s.reg.containers ∨
    (s.reg.containers.find? (fun c =>
        c.team_id == team_id && c.problem_id == ctf_id) = none ∧
      (start_docker_container cfg env inj team_id ctf_id
        s).2.reg.containers =
        s.reg.containers ++
          [⟨provisionCid env team_id ctf_id s.nonce, team_id, ctf_id,
            provisionFlag cfg env s.nonce⟩]) := by
  cases hp : (s.reg.problems.filter fun p =>
      p.id == ctf_id && p.visible).head? with
  | none => exact Or.inl (by simp [start_docker_container, hp])
  | some ctf =>
    cases hfind : s.reg.containers.find? (fun c =>
        c.team_id == team_id && c.problem_id == ctf_id) with
    | some tc => exact Or.inl (by simp [start_docker_container, hp, hfind])
    | none =>
      by_cases hq : cfg.max_containers_per_team ≤
          (s.reg.containers.filter fun c => c.team_id == team_id).length
      · refine Or.inl ?_
        simp only [start_docker_container, hp, hfind]
        rw [if_pos hq]
      · by_cases hcc : inj.containerCreateFails = true
        · refine Or.inl ?_
          simp only [start_docker_container, hp, hfind]
          rw [if_neg hq, if_pos hcc]
        · refine Or.inr ⟨rfl, ?_⟩
          simp only [start_docker_container, hp, hfind]
          rw [if_neg hq, if_neg hcc]
          split
          · exact (portLoop_preserves env inj _ ctf.portBindings _ _ _ _).2.1
          · exact (portLoop_preserves env inj _ ctf.portBindings _ _ _ _).2.1

/-- The loop's trace additions never count toward a predicate that is
false on port queries and `Ports.create` events. -/
lemma portLoop_trace_countP (env : Env) (inj : Inject) (cid : String)
    (p : Ev → Bool)
    (hp : (∀ c g, p (.rt (.portQuery c g)) = false) ∧
      ∀ pr, p (.regCreatePort pr) = false) :
    ∀ (gs : List String) (k : Nat) (acc : List Nat) (reg : Registry)
      (tr : List Ev),
      ((portLoop env inj cid gs k acc reg tr).trace).countP p =
        tr.countP p := by
  intro gs k acc reg tr
  obtain ⟨-, -, extra, h3, h4⟩ := portLoop_preserves env inj cid gs k acc reg tr
  rw [h3, List.countP_append]
  have : extra.countP p = 0 := by
    refine List.countP_eq_zero.mpr fun e he => ?_
    rcases h4 e he with ⟨c, g, rfl⟩ | ⟨pr, rfl⟩
    · simp [hp.1]
    · simp [hp.2]
  omega

/-- The loop never changes the container table (quantified form of
`portLoop_preserves`, convenient for rewriting). -/
lemma portLoop_reg_containers (env : Env) (inj : Inject) (cid : String)
    (gs : List String) (k : Nat) (acc : List Nat) (reg : Registry)
    (tr : List Ev) :
    (portLoop env inj cid gs k acc reg tr).reg.containers =
      reg.containers :=
  (portLoop_preserves env inj cid gs k acc reg tr).2.1

/-! ### Claim theorems -/

/-- C1: provision preserves the per-(team, problem) uniqueness invariant
of the container table, and any row present afterwards either existed
before the call or belongs to a pair for which the in-transaction check
found no existing row — a new instance is created only after that check. -/
theorem provision_preserves_pair_uniqueness (cfg : Config) (env : Env)
    (inj : Inject) (team_id ctf_id : Nat) (s : St)
    (hinv : containersUnique s.reg.containers) :
    containersUnique
      (start_docker_container cfg env inj team_id ctf_id
        s).2.reg.containers ∧
    ∀ c ∈ (start_docker_container cfg env inj team_id ctf_id
        s).2.reg.containers,
      c ∈ s.reg.containers ∨
        ∀ d ∈ s.reg.containers,
          ¬(d.team_id = c.team_id ∧ d.problem_id = c.problem_id) := by
  rcases start_containers_cases cfg env inj team_id ctf_id s with h | ⟨hfind, h⟩
  · rw [h]
    exact ⟨hinv, fun c hc => Or.inl hc⟩
  · rw [h]
    have hnone : ∀ x ∈ s.reg.containers,
        ¬(x.team_id == team_id && x.problem_id == ctf_id) = true :=
      List.find?_eq_none.mp hfind
    constructor
    · intro c hc
      rw [List.filter_append]
      rcases List.mem_append.mp hc with hc | hc
      · have hd : (([⟨provisionCid env team_id ctf_id s.nonce, team_id,
            ctf_id, provisionFlag cfg env s.nonce⟩] : List Container).filter
              fun d => d.team_id == c.team_id &&
                d.problem_id == c.problem_id) = [] := by
          refine List.filter_eq_nil_iff.mpr fun d hd => ?_
          simp only [List.mem_singleton] at hd
          subst hd
          intro hmatch
          simp only [Bool.and_eq_true, beq_iff_eq] at hmatch
          exact hnone c hc (by
            simp only [Bool.and_eq_true, beq_iff_eq]
            exact ⟨hmatch.1.symm, hmatch.2.symm⟩)
        rw [hd, List.append_nil]
        exact hinv c hc
      · simp only [List.mem_singleton] at hc
        subst hc
        have hold : (s.reg.containers.filter fun d =>
            d.team_id == team_id && d.problem_id == ctf_id) = [] :=
          List.filter_eq_nil_iff.mpr hnone
        simp only
        rw [hold]
        simp
    · intro c hc
      rcases List.mem_append.mp hc with hc | hc
      · exact Or.inl hc
      · simp only [List.mem_singleton] at hc
        subst hc
        refine Or.inr fun d hd hmatch => ?_
        exact hnone d hd (by
          simp only [Bool.and_eq_true, beq_iff_eq]
          exact ⟨hmatch.1, hmatch.2⟩)

/-- C3: if the team already holds at least the configured quota of live
instances — counted with `Container.filter(team_id=...)`, i.e. across all
problems, not per problem — provision for a problem the team has no
instance of returns `container_limit_reached` (QuotaExceeded) and leaves
the state untouched, so zero runtime-engine calls are issued. -/
theorem quota_exceeded_rejects_without_create (cfg : Config) (env : Env)
    (inj : Inject) (team_id ctf_id : Nat) (s : St) (ctf : Problem)
    (hp : (s.reg.problems.filter fun p =>
      p.id == ctf_id && p.visible).head? = some ctf)
    (hc : s.reg.containers.find? (fun c =>
      c.team_id == team_id && c.problem_id == ctf_id) = none)
    (hq : cfg.max_containers_per_team ≤
      (s.reg.containers.filter fun c => c.team_id == team_id).length) :
    start_docker_container cfg env inj team_id ctf_id s =
      (.container_limit_reached, s) := by
  simp only [start_docker_container, hp, hc]
  rw [if_pos hq]

/-- C9: a successful provision reports, for every declared guest port, the
entry `[0]` — the first element — of the ordered binding list the runtime
returned for that guest port. -/
theorem first_reported_binding_is_canonical (cfg : Config) (env : Env)
    (team_id ctf_id : Nat) (s : St) (ctf : Problem)
    (hp : (s.reg.problems.filter fun p =>
      p.id == ctf_id && p.visible).head? = some ctf)
    (hc : s.reg.containers.find? (fun c =>
      c.team_id == team_id && c.problem_id == ctf_id) = none)
    (hq : (s.reg.containers.filter fun c =>
      c.team_id == team_id).length < cfg.max_containers_per_team)
    (hb : ∀ g ∈ ctf.portBindings,
      env.bindings (provisionCid env team_id ctf_id s.nonce) g ≠ []) :
    (start_docker_container cfg env noInject team_id ctf_id s).1 =
      .container_start
        (ctf.portBindings.map fun g =>
          ((env.bindings (provisionCid env team_id ctf_id s.nonce) g).head?).getD 0)
        ctf_id := by
  rw [start_success cfg env noInject team_id ctf_id s ctf rfl (fun _ => rfl)
    hp hc hq hb]
  simp [portOf]

/-- C2: calling provision twice for the same (team, problem) pair returns
the same port list on both calls, the second call reports
`container_already_running`, and exactly one docker create call is issued
across the two calls. -/
theorem provision_idempotent_pair (cfg : Config) (env : Env)
    (team_id ctf_id : Nat) (s : St) (ctf : Problem)
    (hp : (s.reg.problems.filter fun p =>
      p.id == ctf_id && p.visible).head? = some ctf)
    (hc : s.reg.containers.find? (fun c =>
      c.team_id == team_id && c.problem_id == ctf_id) = none)
    (hq : (s.reg.containers.filter fun c =>
      c.team_id == team_id).length < cfg.max_containers_per_team)
    (hb : ∀ g ∈ ctf.portBindings,
      env.bindings (provisionCid env team_id ctf_id s.nonce) g ≠ [])
    (hfresh : ∀ pr ∈ s.reg.ports,
      pr.container_id ≠ provisionCid env team_id ctf_id s.nonce)
    (htr : s.trace = []) :
    ∃ ports,
      (start_docker_container cfg env noInject team_id ctf_id s).1 =
        .container_start ports ctf_id ∧
      (start_docker_container cfg env noInject team_id ctf_id
        (start_docker_container cfg env noInject team_id ctf_id s).2).1 =
        .container_already_running ports ctf_id ∧
      (start_docker_container cfg env noInject team_id ctf_id
        (start_docker_container cfg env noInject team_id ctf_id s).2).2.trace.countP
          isCreateEv = 1 := by
  have hrw := start_success cfg env noInject team_id ctf_id s ctf rfl
    (fun _ => rfl) hp hc hq hb
  have h2st : (start_docker_container cfg env noInject team_id ctf_id s).2 =
      postProvisionSt cfg env team_id ctf_id s ctf := by rw [hrw]
  have hp2 : ((postProvisionSt cfg env team_id ctf_id s
      ctf).reg.problems.filter fun p => p.id == ctf_id && p.visible).head? =
      some ctf := by
    rw [postProvision_problems]; exact hp
  have hc2 : (postProvisionSt cfg env team_id ctf_id s
      ctf).reg.containers.find? (fun c =>
        c.team_id == team_id && c.problem_id == ctf_id) =
      some ⟨provisionCid env team_id ctf_id s.nonce, team_id, ctf_id,
        provisionFlag cfg env s.nonce⟩ := by
    rw [postProvision_containers, List.find?_append, hc]
    simp
  have halready := start_already cfg env noInject team_id ctf_id
    (postProvisionSt cfg env team_id ctf_id s ctf) ctf
    ⟨provisionCid env team_id ctf_id s.nonce, team_id, ctf_id,
      provisionFlag cfg env s.nonce⟩ hp2 hc2
  have hports : ((postProvisionSt cfg env team_id ctf_id s
      ctf).reg.ports.filter fun pr =>
        pr.container_id == provisionCid env team_id ctf_id s.nonce).map
        (·.port) =
      ctf.portBindings.map
        (portOf env (provisionCid env team_id ctf_id s.nonce)) := by
    rw [postProvision_ports, List.filter_append]
    have h1 : (s.reg.ports.filter fun pr =>
        pr.container_id == provisionCid env team_id ctf_id s.nonce) = [] :=
      List.filter_eq_nil_iff.mpr fun pr hpr => by
        simpa using hfresh pr hpr
    have h2 : ((ctf.portBindings.map fun g =>
        (⟨portOf env (provisionCid env team_id ctf_id s.nonce) g,
          provisionCid env team_id ctf_id s.nonce⟩ : PortRow)).filter
          fun pr => pr.container_id ==
            provisionCid env team_id ctf_id s.nonce) =
        ctf.portBindings.map fun g =>
          (⟨portOf env (provisionCid env team_id ctf_id s.nonce) g,
            provisionCid env team_id ctf_id s.nonce⟩ : PortRow) :=
      List.filter_eq_self.mpr fun pr hpr => by
        obtain ⟨g, _, rfl⟩ := List.mem_map.mp hpr
        simp
    rw [h1, h2]
    simp [List.map_map, Function.comp]
  refine ⟨ctf.portBindings.map
    (portOf env (provisionCid env team_id ctf_id s.nonce)), ?_, ?_, ?_⟩
  · rw [hrw]
  · rw [h2st, halready, hports]
  · rw [h2st, halready]
    simp only [postProvision_trace, htr]
    simp [List.countP_append, List.countP_cons, isCreateEv,
      portEvs_countP_create]

/-- C4: once provision has created the runtime container, any error caught
in the persistence block — in particular a failing `Container.create` —
makes the call return `db_error` (PersistenceError) after issuing exactly
one compensating `stop` and one compensating `remove` for that container,
which afterwards no longer exists in the runtime. -/
theorem persistence_failure_compensates_once (cfg : Config) (env : Env)
    (inj : Inject) (team_id ctf_id : Nat) (s : St) (ctf : Problem)
    (hp : (s.reg.problems.filter fun p =>
      p.id == ctf_id && p.visible).head? = some ctf)
    (hc : s.reg.containers.find? (fun c =>
      c.team_id == team_id && c.problem_id == ctf_id) = none)
    (hq : (s.reg.containers.filter fun c =>
      c.team_id == team_id).length < cfg.max_containers_per_team)
    (hfr : provisionCid env team_id ctf_id s.nonce ∉ s.runtime)
    (htr : s.trace = []) :
    ((start_docker_container cfg env inj team_id ctf_id s).1 = .db_error →
      (start_docker_container cfg env inj team_id ctf_id
        s).2.trace.countP
          (fun e => e == .rt (.stop (provisionCid env team_id ctf_id
            s.nonce))) = 1 ∧
      (start_docker_container cfg env inj team_id ctf_id
        s).2.trace.countP
          (fun e => e == .rt (.remove (provisionCid env team_id ctf_id
            s.nonce))) = 1 ∧
      provisionCid env team_id ctf_id s.nonce ∉
        (start_docker_container cfg env inj team_id ctf_id s).2.runtime) ∧
    (inj.containerCreateFails = true →
      (start_docker_container cfg env inj team_id ctf_id s).1 =
        .db_error) := by
  have hcq := Nat.not_le.mpr hq
  simp only [start_docker_container, hp, hc, provisionCid] at hfr ⊢
  rw [if_neg hcq]
  by_cases hcc : inj.containerCreateFails = true
  · rw [if_pos hcc]
    refine ⟨fun _ => ⟨?_, ?_, ?_⟩, fun _ => rfl⟩
    · simp [htr, List.countP_cons]
    · simp [htr, List.countP_cons]
    · simpa [List.erase_cons_head] using hfr
  · rw [if_neg hcc]
    refine ⟨?_, fun hcc2 => absurd hcc2 hcc⟩
    split
    · intro habs
      simp at habs
    · intro _
      refine ⟨?_, ?_, ?_⟩
      · rw [List.countP_append, portLoop_trace_countP env inj
          (env.newId (provisionName env team_id ctf_id s.nonce))
          (fun e => e == .rt (.stop (env.newId
            (provisionName env team_id ctf_id s.nonce))))
          ⟨fun c g => by simp, fun pr => by simp⟩]
        simp [htr, List.countP_cons, List.countP_append]
      · rw [List.countP_append, portLoop_trace_countP env inj
          (env.newId (provisionName env team_id ctf_id s.nonce))
          (fun e => e == .rt (.remove (env.newId
            (provisionName env team_id ctf_id s.nonce))))
          ⟨fun c g => by simp, fun pr => by simp⟩]
        simp [htr, List.countP_cons, List.countP_append]
      · simpa [List.erase_cons_head] using hfr

/-- C10: if, with the runtime container already created and the
`Container` row already persisted, the port query or `Ports.create` part
of the persistence block fails, the handler stops and removes the runtime
container and returns `db_error` by a normal return — so the transaction
commits and the new `Container` row survives in the registry: the registry
is not restored to its pre-call state on this path. -/
theorem persistence_failure_keeps_instance_row (cfg : Config) (env : Env)
    (inj : Inject) (team_id ctf_id : Nat) (s : St) (ctf : Problem)
    (hp : (s.reg.problems.filter fun p =>
      p.id == ctf_id && p.visible).head? = some ctf)
    (hc : s.reg.containers.find? (fun c =>
      c.team_id == team_id && c.problem_id == ctf_id) = none)
    (hq : (s.reg.containers.filter fun c =>
      c.team_id == team_id).length < cfg.max_containers_per_team)
    (hcc : inj.containerCreateFails = false)
    (hfr : provisionCid env team_id ctf_id s.nonce ∉ s.runtime) :
    (start_docker_container cfg env inj team_id ctf_id s).1 = .db_error →
      (⟨provisionCid env team_id ctf_id s.nonce, team_id, ctf_id,
        provisionFlag cfg env s.nonce⟩ : Container) ∈
        (start_docker_container cfg env inj team_id ctf_id
          s).2.reg.containers ∧
      (start_docker_container cfg env inj team_id ctf_id
        s).2.reg.containers ≠ s.reg.containers ∧
      provisionCid env team_id ctf_id s.nonce ∉
        (start_docker_container cfg env inj team_id ctf_id s).2.runtime := by
  have hcq := Nat.not_le.mpr hq
  have hccne : ¬(inj.containerCreateFails = true) := by simp [hcc]
  simp only [start_docker_container, hp, hc, provisionCid] at hfr ⊢
  rw [if_neg hcq, if_neg hccne]
  split
  · intro habs
    simp at habs
  · intro _
    refine ⟨?_, ?_, ?_⟩
    · rw [portLoop_reg_containers]
      simp
    · rw [portLoop_reg_containers]
      intro habs
      have := congrArg List.length habs
      simp at this
    · simpa [List.erase_cons_head] using hfr

/-- C7: teardown never mutates the runtime before the registry deletion —
no stop/remove event ever precedes the `regDelete` event in its trace;
when the registry deletion fails it returns `db_error` (PersistenceError)
with the state untouched, hence zero runtime calls; and on the success
path the trace is exactly registry-delete first, then get/stop/remove. -/
theorem teardown_registry_delete_precedes_runtime (inj : Inject)
    (team_id ctf_id : Nat) (s : St) (htr : s.trace = []) :
    ((stop_docker_container inj team_id ctf_id s).2.trace.takeWhile
      (fun e => !isRegDeleteEv e)).countP isRtMutEv = 0 ∧
    (∀ q, (s.reg.problems.filter fun p => p.id == ctf_id).head? = some q →
     ∀ tc, s.reg.containers.find? (fun c =>
        c.team_id == team_id && c.problem_id == ctf_id) = some tc →
      (inj.deleteFails = true →
        stop_docker_container inj team_id ctf_id s = (.db_error, s)) ∧
      (inj.deleteFails = false → tc.docker_id ∈ s.runtime →
        (stop_docker_container inj team_id ctf_id s).2.trace =
          [.regDelete team_id ctf_id, .rt (.get tc.docker_id),
           .rt (.stop tc.docker_id), .rt (.remove tc.docker_id)])) := by
  constructor
  · cases hp : (s.reg.problems.filter fun p => p.id == ctf_id).head? with
    | none => simp [stop_docker_container, hp, htr]
    | some q =>
      cases hf : s.reg.containers.find? (fun c =>
          c.team_id == team_id && c.problem_id == ctf_id) with
      | none => simp [stop_docker_container, hp, hf, htr]
      | some tc =>
        by_cases hd : inj.deleteFails = true
        · simp [stop_docker_container, hp, hf, hd, htr]
        · by_cases hm : tc.docker_id ∈ s.runtime
          · simp [stop_docker_container, hp, hf, hd, hm, htr,
              isRegDeleteEv, isRtMutEv]
          · simp [stop_docker_container, hp, hf, hd, hm, htr,
              isRegDeleteEv, isRtMutEv]
  · intro q hp tc hf
    constructor
    · intro hd
      simp [stop_docker_container, hp, hf, hd]
    · intro hd hm
      simp [stop_docker_container, hp, hf, hd, hm, htr]

/-- C8 (amended): teardown on a pair with no registered instance answers
with one of the two not-found codes (NotFound) and issues zero
runtime-engine calls — unconditionally; and, provided the runtime still
holds every registered container, its result is always one of
`ctf_not_found` / `container_not_found` (NotFound), `db_error`
(PersistenceError) or `container_stop` (ok). When a registered container
is gone from the runtime, the docker `get` raises instead — see the
counterexample below. -/
theorem teardown_not_found_and_outcome_set (inj : Inject)
    (team_id ctf_id : Nat) (s : St) (htr : s.trace = []) :
    (s.reg.containers.find? (fun c =>
        c.team_id == team_id && c.problem_id == ctf_id) = none →
      ((stop_docker_container inj team_id ctf_id s).1 = .ctf_not_found ∨
       (stop_docker_container inj team_id ctf_id s).1 =
         .container_not_found) ∧
      (stop_docker_container inj team_id ctf_id s).2.trace.countP
        isRtEv = 0) ∧
    ((∀ c ∈ s.reg.containers, c.docker_id ∈ s.runtime) →
      ((stop_docker_container inj team_id ctf_id s).1 = .ctf_not_found ∨
       (stop_docker_container inj team_id ctf_id s).1 =
         .container_not_found ∨
       (stop_docker_container inj team_id ctf_id s).1 = .db_error ∨
       (stop_docker_container inj team_id ctf_id s).1 =
         .container_stop)) := by
  cases hp : (s.reg.problems.filter fun p => p.id == ctf_id).head? with
  | none =>
    refine ⟨fun _ => ⟨Or.inl ?_, ?_⟩, fun _ => Or.inl ?_⟩ <;>
      simp [stop_docker_container, hp, htr]
  | some q =>
    cases hf : s.reg.containers.find? (fun c =>
        c.team_id == team_id && c.problem_id == ctf_id) with
    | none =>
      refine ⟨fun _ => ⟨Or.inr ?_, ?_⟩, fun _ => Or.inr (Or.inl ?_)⟩ <;>
        simp [stop_docker_container, hp, hf, htr]
    | some tc =>
      refine ⟨fun habs => absurd habs (by simp), fun hcons => ?_⟩
      have hmem : tc.docker_id ∈ s.runtime :=
        hcons tc (List.mem_of_find?_eq_some hf)
      by_cases hd : inj.deleteFails = true
      · exact Or.inr (Or.inr (Or.inl (by
          simp [stop_docker_container, hp, hf, hd])))
      · exact Or.inr (Or.inr (Or.inr (by
          simp [stop_docker_container, hp, hf, hd, hmem])))

/-- C8 counterexample: starting from the empty deployment, one provision
call whose `Ports.create` fails (the C10 path) commits the `Container`
row while stopping and removing the runtime container. Teardown on the
same pair then reaches `docker_client.containers.get` for a container the
runtime no longer holds; the docker error escapes the route, so the
outcome is `raised` — none of ok, NotFound, or PersistenceError, refuting
the claim's outcome-set clause. -/
theorem teardown_after_lost_container_escapes_outcome_set :
    (stop_docker_container noInject 7 1
      (start_docker_container sampleCfg sampleEnv portsFailInj 7 1
        sampleSt).2).1 = .raised ∧
    ¬((stop_docker_container noInject 7 1
        (start_docker_container sampleCfg sampleEnv portsFailInj 7 1
          sampleSt).2).1 = .ctf_not_found ∨
      (stop_docker_container noInject 7 1
        (start_docker_container sampleCfg sampleEnv portsFailInj 7 1
          sampleSt).2).1 = .container_not_found ∨
      (stop_docker_container noInject 7 1
        (start_docker_container sampleCfg sampleEnv portsFailInj 7 1
          sampleSt).2).1 = .db_error ∨
      (stop_docker_container noInject 7 1
        (start_docker_container sampleCfg sampleEnv portsFailInj 7 1
          sampleSt).2).1 = .container_stop) := by
  decide

/-! ### Lemmas about the round-2 bulk reset -/

/-- `_del_cont` never touches the registry. -/
lemma _del_cont_reg (id : String) (s : St) : (_del_cont id s).2.reg = s.reg := by
  by_cases h : id ∈ s.runtime <;> simp [_del_cont, h]

/-- `_del_cont` never issues a docker create call. -/
lemma _del_cont_creates (id : String) (s : St) :
    (_del_cont id s).2.trace.countP isCreateEv = s.trace.countP isCreateEv := by
  by_cases h : id ∈ s.runtime <;>
    simp [_del_cont, h, List.countP_append, List.countP_cons, isCreateEv]

/-- A `_del_cont` unit whose container still exists succeeds, erasing it
from the runtime. -/
lemma _del_cont_spec (id : String) (s : St) (h : id ∈ s.runtime) :
    _del_cont id s =
      (true, { s with
        trace := s.trace ++ [.rt (.get id), .rt (.stop id), .rt (.remove id)],
        runtime := s.runtime.erase id }) := by
  simp [_del_cont, h]

/-- The teardown phase never touches the registry. -/
lemma delPhase_reg : ∀ (cs : List Container) (s : St),
    (delPhase cs s).2.reg = s.reg
  | [], _ => rfl
  | c :: cs, s => by
    simp only [delPhase]
    rw [delPhase_reg cs _, _del_cont_reg]

/-- The teardown phase never issues a docker create call. -/
lemma delPhase_creates : ∀ (cs : List Container) (s : St),
    (delPhase cs s).2.trace.countP isCreateEv = s.trace.countP isCreateEv
  | [], _ => rfl
  | c :: cs, s => by
    simp only [delPhase]
    rw [delPhase_creates cs _, _del_cont_creates]

/-- If every registered container still exists in the runtime (with
pairwise distinct docker ids), every teardown-phase unit succeeds. -/
lemma delPhase_ok : ∀ (cs : List Container) (s : St),
    (∀ c ∈ cs, c.docker_id ∈ s.runtime) →
    (cs.map fun c => c.docker_id).Nodup → (delPhase cs s).1 = true
  | [], _, _, _ => rfl
  | c :: cs, s, hmem, hnd => by
    have hc : c.docker_id ∈ s.runtime := hmem c (by simp)
    have hnd2 : (∀ x ∈ cs, ¬x.docker_id = c.docker_id) ∧
        (cs.map fun c => c.docker_id).Nodup := by simpa using hnd
    simp only [delPhase]
    rw [_del_cont_spec c.docker_id s hc]
    have hrest : (delPhase cs { s with
        trace := s.trace ++ [.rt (.get c.docker_id),
          .rt (.stop c.docker_id), .rt (.remove c.docker_id)],
        runtime := s.runtime.erase c.docker_id }).1 = true := by
      refine delPhase_ok cs _ (fun c2 hc2 => ?_) hnd2.2
      exact (List.mem_erase_of_ne (hnd2.1 c2 hc2)).mpr
        (hmem c2 (List.mem_cons_of_mem c hc2))
    simp [hrest]

/-- The round-2 port queries contain no docker create call. -/
lemma r2PortQueries_creates (env : Env) (cid : String) :
    ∀ gs : List String, (r2PortQueries env cid gs).countP isCreateEv = 0
  | [] => by simp [r2PortQueries]
  | g :: gs => by
    cases hp : (env.bindings cid g).head? with
    | none => simp [r2PortQueries, hp, isCreateEv]
    | some p =>
      simp [r2PortQueries, hp, isCreateEv, List.countP_cons,
        r2PortQueries_creates env cid gs]

/-- Every `_create_container` unit — succeeding or failing — issues
exactly one docker create call. -/
lemma _create_container_creates (cfg : Config) (env : Env) (inj : R2Inject)
    (prob : R2Problem) (mteam : MetaTeam) (s : St) :
    (_create_container cfg env inj prob mteam s).trace.countP isCreateEv =
      s.trace.countP isCreateEv + 1 := by
  by_cases hf : inj.runFails prob.pk mteam.pk = true
  · simp [_create_container, hf, List.countP_append, List.countP_cons,
      isCreateEv]
  · simp only [_create_container]
    rw [if_neg hf]
    split <;>
      simp [List.countP_append, List.countP_cons, isCreateEv,
        r2PortQueries_creates]

/-- A `_create_container` unit adds one `R2Container` row unless its
docker run call failed. -/
lemma _create_container_r2len (cfg : Config) (env : Env) (inj : R2Inject)
    (prob : R2Problem) (mteam : MetaTeam) (s : St) :
    (_create_container cfg env inj prob mteam s).reg.r2containers.length =
      s.reg.r2containers.length +
        (if inj.runFails prob.pk mteam.pk = true then 0 else 1) := by
  by_cases hf : inj.runFails prob.pk mteam.pk = true
  · simp [_create_container, hf]
  · simp only [_create_container]
    rw [if_neg hf]
    split <;> simp [hf]

/-- The provision phase issues exactly one docker create call per pair. -/
lemma provPhase_creates (cfg : Config) (env : Env) (inj : R2Inject) :
    ∀ (pairs : List (R2Problem × MetaTeam)) (s : St),
    (provPhase cfg env inj pairs s).trace.countP isCreateEv =
      s.trace.countP isCreateEv + pairs.length
  | [], _ => by simp [provPhase]
  | pm :: rest, s => by
    simp only [provPhase]
    rw [provPhase_creates cfg env inj rest _, _create_container_creates]
    simp
    omega

/-- The provision phase adds one `R2Container` row per pair whose docker
run call did not fail. -/
lemma provPhase_r2len (cfg : Config) (env : Env) (inj : R2Inject) :
    ∀ (pairs : List (R2Problem × MetaTeam)) (s : St),
    (provPhase cfg env inj pairs s).reg.r2containers.length =
      s.reg.r2containers.length +
        pairs.countP fun pm => !inj.runFails pm.1.pk pm.2.pk
  | [], _ => by simp [provPhase]
  | pm :: rest, s => by
    simp only [provPhase]
    rw [provPhase_r2len cfg env inj rest _, _create_container_r2len]
    by_cases hf : inj.runFails pm.1.pk pm.2.pk = true
    · simp [List.countP_cons, hf]
    · simp [List.countP_cons, hf]
      omega

/-- `itertools.product` yields `|problems| * |mteams|` pairs. -/
lemma prodPairs_length : ∀ (ps : List R2Problem) (ts : List MetaTeam),
    (prodPairs ps ts).length = ps.length * ts.length
  | [], _ => by simp [prodPairs]
  | p :: ps, ts => by
    have ih := prodPairs_length ps ts
    simp only [prodPairs, List.flatMap_cons, List.length_append,
      List.length_map, List.length_cons] at ih ⊢
    rw [ih]
    ring

/-- Counting the complement of a predicate. -/
lemma countP_not_eq_length_sub {α : Type} (p : α → Bool) :
    ∀ l : List α, (l.countP fun a => !p a) = l.length - l.countP p
  | [] => by simp
  | a :: l => by
    have ih := countP_not_eq_length_sub p l
    have hle := List.countP_le_length (p := p) (l := l)
    by_cases ha : p a = true
    · simp [List.countP_cons, ha, ih]
    · simp [List.countP_cons, ha, ih]
      omega

/-- When every teardown unit succeeds and the registry clear does not
fail, `round2` runs the provision phase on the cleared state and returns
normally. -/
lemma round2_ok_eq (cfg : Config) (env : Env) (inj : R2Inject) (s : St)
    (hdel : (delPhase s.reg.containers s).1 = true) :
    round2 cfg env inj false s =
      (.ok, provPhase cfg env inj
        (prodPairs s.reg.r2problems s.reg.mteams)
        { (delPhase s.reg.containers s).2 with
          reg := { (delPhase s.reg.containers s).2.reg with
            containers := [], ports := [] },
          trace := (delPhase s.reg.containers s).2.trace ++
            [.regDeleteAllContainers] }) := by
  simp [round2, hdel, delPhase_reg]

/-- C5 counterexample: in `crashSt` the registered container `a` no longer
exists in the runtime, so its `_del_cont` unit raises; contrary to the
claim that a unit's defect is caught at the unit boundary and never
propagates, `round2` aborts with an escaping exception: the registry clear
never runs (both rows are still registered) and the provision phase issues
zero create calls even though the round-2 catalog is nonempty. -/
theorem bulk_teardown_unit_failure_aborts_batch :
    (round2 sampleCfg sampleEnv noR2Fail false crashSt).1 = .raised ∧
    (round2 sampleCfg sampleEnv noR2Fail false
      crashSt).2.trace.countP isCreateEv = 0 ∧
    (round2 sampleCfg sampleEnv noR2Fail false
      crashSt).2.reg.containers = crashSt.reg.containers := by
  decide

/-- C5 (amended): only the provision phase of the bulk reset isolates its
units — `_create_container` catches every defect at the unit boundary, so
whatever provision failures are injected, `round2` still completes
normally once the teardown phase has succeeded; a teardown-phase unit has
no such boundary and its failure aborts the batch. -/
theorem bulk_provision_units_isolated (cfg : Config) (env : Env)
    (inj : R2Inject) (s : St)
    (hcons : ∀ c ∈ s.reg.containers, c.docker_id ∈ s.runtime)
    (hnd : (s.reg.containers.map fun c => c.docker_id).Nodup) :
    (round2 cfg env inj false s).1 = .ok := by
  rw [round2_ok_eq cfg env inj s
    (delPhase_ok s.reg.containers s hcons hnd)]

/-- C6: with N meta-teams and M round-2 problems, the provision phase of
`round2` issues exactly M×N docker create attempts — one per pair of the
catalog cross product — and when exactly one unit's docker run is made to
fail, the other M×N − 1 pairs still end up as registered `R2Container`
instances, with the batch completing normally. -/
theorem bulk_reprovision_cross_product_attempts (cfg : Config) (env : Env)
    (inj : R2Inject) (s : St)
    (hcons : ∀ c ∈ s.reg.containers, c.docker_id ∈ s.runtime)
    (hnd : (s.reg.containers.map fun c => c.docker_id).Nodup)
    (htr : s.trace = [])
    (hone : ((prodPairs s.reg.r2problems s.reg.mteams).countP
      fun pm => inj.runFails pm.1.pk pm.2.pk) = 1) :
    (round2 cfg env inj false s).1 = .ok ∧
    (round2 cfg env inj false s).2.trace.countP isCreateEv =
      s.reg.r2problems.length * s.reg.mteams.length ∧
    (round2 cfg env inj false s).2.reg.r2containers.length =
      s.reg.r2containers.length +
        (s.reg.r2problems.length * s.reg.mteams.length - 1) := by
  rw [round2_ok_eq cfg env inj s
    (delPhase_ok s.reg.containers s hcons hnd)]
  refine ⟨rfl, ?_, ?_⟩
  · rw [provPhase_creates, prodPairs_length]
    simp only [List.countP_append, delPhase_creates, htr]
    simp [isCreateEv]
  · rw [provPhase_r2len, countP_not_eq_length_sub, hone, prodPairs_length]
    simp [delPhase_reg]

/-! ### Concrete witnesses -/

/-- Witness for C1 at the empty deployment. -/
theorem provision_preserves_pair_uniqueness_witness :
    containersUnique sampleSt.reg.containers ∧
    (containersUnique
      (start_docker_container sampleCfg sampleEnv noInject 7 1
        sampleSt).2.reg.containers ∧
    ∀ c ∈ (start_docker_container sampleCfg sampleEnv noInject 7 1
        sampleSt).2.reg.containers,
      c ∈ sampleSt.reg.containers ∨
        ∀ d ∈ sampleSt.reg.containers,
          ¬(d.team_id = c.team_id ∧ d.problem_id = c.problem_id)) :=
  have h : containersUnique sampleSt.reg.containers :=
    fun c hc => absurd hc (List.not_mem_nil c)
  ⟨h, provision_preserves_pair_uniqueness sampleCfg sampleEnv noInject 7 1
    sampleSt h⟩

/-- Witness for C2 at the empty deployment. -/
theorem provision_idempotent_pair_witness :
    ((sampleSt.reg.problems.filter fun p =>
      p.id == 1 && p.visible).head? = some sampleProblem) ∧
    (sampleSt.reg.containers.find? (fun c =>
      c.team_id == 7 && c.problem_id == 1) = none) ∧
    ((sampleSt.reg.containers.filter fun c =>
      c.team_id == 7).length < sampleCfg.max_containers_per_team) ∧
    (∀ g ∈ sampleProblem.portBindings,
      sampleEnv.bindings (provisionCid sampleEnv 7 1 sampleSt.nonce) g ≠ []) ∧
    (∀ pr ∈ sampleSt.reg.ports,
      pr.container_id ≠ provisionCid sampleEnv 7 1 sampleSt.nonce) ∧
    sampleSt.trace = [] ∧
    ∃ ports,
      (start_docker_container sampleCfg sampleEnv noInject 7 1
        sampleSt).1 = .container_start ports 1 ∧
      (start_docker_container sampleCfg sampleEnv noInject 7 1
        (start_docker_container sampleCfg sampleEnv noInject 7 1
          sampleSt).2).1 = .container_already_running ports 1 ∧
      (start_docker_container sampleCfg sampleEnv noInject 7 1
        (start_docker_container sampleCfg sampleEnv noInject 7 1
          sampleSt).2).2.trace.countP isCreateEv = 1 :=
  ⟨by decide, by decide, by decide, by decide, by decide, rfl,
    provision_idempotent_pair sampleCfg sampleEnv 7 1 sampleSt sampleProblem
      (by decide) (by decide) (by decide) (by decide) (by decide) rfl⟩

/-- Witness for C3: team 7 is at quota in `quotaSt`. -/
theorem quota_exceeded_rejects_without_create_witness :
    ((quotaSt.reg.problems.filter fun p =>
      p.id == 1 && p.visible).head? = some sampleProblem) ∧
    (quotaSt.reg.containers.find? (fun c =>
      c.team_id == 7 && c.problem_id == 1) = none) ∧
    (sampleCfg.max_containers_per_team ≤
      (quotaSt.reg.containers.filter fun c => c.team_id == 7).length) ∧
    start_docker_container sampleCfg sampleEnv noInject 7 1 quotaSt =
      (.container_limit_reached, quotaSt) :=
  ⟨by decide, by decide, by decide,
    quota_exceeded_rejects_without_create sampleCfg sampleEnv noInject 7 1
      quotaSt sampleProblem (by decide) (by decide) (by decide)⟩

/-- Witness for C4 with a failing `Container.create`. -/
theorem persistence_failure_compensates_once_witness :
    ((sampleSt.reg.problems.filter fun p =>
      p.id == 1 && p.visible).head? = some sampleProblem) ∧
    (sampleSt.reg.containers.find? (fun c =>
      c.team_id == 7 && c.problem_id == 1) = none) ∧
    ((sampleSt.reg.containers.filter fun c =>
      c.team_id == 7).length < sampleCfg.max_containers_per_team) ∧
    (provisionCid sampleEnv 7 1 sampleSt.nonce ∉ sampleSt.runtime) ∧
    sampleSt.trace = [] ∧
    (((start_docker_container sampleCfg sampleEnv createFailInj 7 1
        sampleSt).1 = .db_error →
      (start_docker_container sampleCfg sampleEnv createFailInj 7 1
        sampleSt).2.trace.countP
          (fun e => e == .rt (.stop (provisionCid sampleEnv 7 1
            sampleSt.nonce))) = 1 ∧
      (start_docker_container sampleCfg sampleEnv createFailInj 7 1
        sampleSt).2.trace.countP
          (fun e => e == .rt (.remove (provisionCid sampleEnv 7 1
            sampleSt.nonce))) = 1 ∧
      provisionCid sampleEnv 7 1 sampleSt.nonce ∉
        (start_docker_container sampleCfg sampleEnv createFailInj 7 1
          sampleSt).2.runtime) ∧
    (createFailInj.containerCreateFails = true →
      (start_docker_container sampleCfg sampleEnv createFailInj 7 1
        sampleSt).1 = .db_error)) :=
  ⟨by decide, by decide, by decide, by decide, rfl,
    persistence_failure_compensates_once sampleCfg sampleEnv createFailInj
      7 1 sampleSt sampleProblem (by decide) (by decide) (by decide)
      (by decide) rfl⟩

/-- Witness for the amended C5 at the 2×2 catalog with one injected
provision failure. -/
theorem bulk_provision_units_isolated_witness :
    (∀ c ∈ r2St.reg.containers, c.docker_id ∈ r2St.runtime) ∧
    (r2St.reg.containers.map fun c => c.docker_id).Nodup ∧
    (round2 sampleCfg sampleEnv oneFailInj false r2St).1 = .ok :=
  have h : ∀ c ∈ r2St.reg.containers, c.docker_id ∈ r2St.runtime :=
    fun c hc => absurd hc (List.not_mem_nil c)
  ⟨h, by decide,
    bulk_provision_units_isolated sampleCfg sampleEnv oneFailInj r2St h
      (by decide)⟩

/-- Witness for C6: 2 problems × 2 meta-teams, one failing pair, four
create attempts, three new instances. -/
theorem bulk_reprovision_cross_product_attempts_witness :
    (∀ c ∈ r2St.reg.containers, c.docker_id ∈ r2St.runtime) ∧
    (r2St.reg.containers.map fun c => c.docker_id).Nodup ∧
    r2St.trace = [] ∧
    (((prodPairs r2St.reg.r2problems r2St.reg.mteams).countP
      fun pm => oneFailInj.runFails pm.1.pk pm.2.pk) = 1) ∧
    ((round2 sampleCfg sampleEnv oneFailInj false r2St).1 = .ok ∧
    (round2 sampleCfg sampleEnv oneFailInj false r2St).2.trace.countP
      isCreateEv = r2St.reg.r2problems.length * r2St.reg.mteams.length ∧
    (round2 sampleCfg sampleEnv oneFailInj false
      r2St).2.reg.r2containers.length =
      r2St.reg.r2containers.length +
        (r2St.reg.r2problems.length * r2St.reg.mteams.length - 1)) :=
  have h : ∀ c ∈ r2St.reg.containers, c.docker_id ∈ r2St.runtime :=
    fun c hc => absurd hc (List.not_mem_nil c)
  ⟨h, by decide, rfl, by decide,
    bulk_reprovision_cross_product_attempts sampleCfg sampleEnv oneFailInj
      r2St h (by decide) rfl (by decide)⟩

/-- Witness for C7 at a deployment with one live instance. -/
theorem teardown_registry_delete_precedes_runtime_witness :
    teardownSt.trace = [] ∧
    (((stop_docker_container noInject 7 1 teardownSt).2.trace.takeWhile
      (fun e => !isRegDeleteEv e)).countP isRtMutEv = 0 ∧
    (∀ q, (teardownSt.reg.problems.filter fun p =>
        p.id == 1).head? = some q →
     ∀ tc, teardownSt.reg.containers.find? (fun c =>
        c.team_id == 7 && c.problem_id == 1) = some tc →
      (noInject.deleteFails = true →
        stop_docker_container noInject 7 1 teardownSt =
          (.db_error, teardownSt)) ∧
      (noInject.deleteFails = false → tc.docker_id ∈ teardownSt.runtime →
        (stop_docker_container noInject 7 1 teardownSt).2.trace =
          [.regDelete 7 1, .rt (.get tc.docker_id),
           .rt (.stop tc.docker_id), .rt (.remove tc.docker_id)]))) :=
  ⟨rfl, teardown_registry_delete_precedes_runtime noInject 7 1
    teardownSt rfl⟩

/-- Witness for the amended C8 at the empty deployment: the pair (7, 9)
has no problem and no instance. -/
theorem teardown_not_found_and_outcome_set_witness :
    sampleSt.trace = [] ∧
    ((sampleSt.reg.containers.find? (fun c =>
        c.team_id == 7 && c.problem_id == 9) = none →
      ((stop_docker_container noInject 7 9 sampleSt).1 = .ctf_not_found ∨
       (stop_docker_container noInject 7 9 sampleSt).1 =
         .container_not_found) ∧
      (stop_docker_container noInject 7 9 sampleSt).2.trace.countP
        isRtEv = 0) ∧
    ((∀ c ∈ sampleSt.reg.containers, c.docker_id ∈ sampleSt.runtime) →
      ((stop_docker_container noInject 7 9 sampleSt).1 = .ctf_not_found ∨
       (stop_docker_container noInject 7 9 sampleSt).1 =
         .container_not_found ∨
       (stop_docker_container noInject 7 9 sampleSt).1 = .db_error ∨
       (stop_docker_container noInject 7 9 sampleSt).1 =
         .container_stop))) :=
  ⟨rfl, teardown_not_found_and_outcome_set noInject 7 9 sampleSt rfl⟩

/-- Witness for C9 at the empty deployment. -/
theorem first_reported_binding_is_canonical_witness :
    ((sampleSt.reg.problems.filter fun p =>
      p.id == 1 && p.visible).head? = some sampleProblem) ∧
    (sampleSt.reg.containers.find? (fun c =>
      c.team_id == 7 && c.problem_id == 1) = none) ∧
    ((sampleSt.reg.containers.filter fun c =>
      c.team_id == 7).length < sampleCfg.max_containers_per_team) ∧
    (∀ g ∈ sampleProblem.portBindings,
      sampleEnv.bindings (provisionCid sampleEnv 7 1 sampleSt.nonce) g ≠ []) ∧
    (start_docker_container sampleCfg sampleEnv noInject 7 1 sampleSt).1 =
      .container_start
        (sampleProblem.portBindings.map fun g =>
          ((sampleEnv.bindings (provisionCid sampleEnv 7 1 sampleSt.nonce)
            g).head?).getD 0) 1 :=
  ⟨by decide, by decide, by decide, by decide,
    first_reported_binding_is_canonical sampleCfg sampleEnv 7 1 sampleSt
      sampleProblem (by decide) (by decide) (by decide) (by decide)⟩

/-- Witness for C10 with every `Ports.create` failing: the instance row
survives although its container was stopped and removed. -/
theorem persistence_failure_keeps_instance_row_witness :
    ((sampleSt.reg.problems.filter fun p =>
      p.id == 1 && p.visible).head? = some sampleProblem) ∧
    (sampleSt.reg.containers.find? (fun c =>
      c.team_id == 7 && c.problem_id == 1) = none) ∧
    ((sampleSt.reg.containers.filter fun c =>
      c.team_id == 7).length < sampleCfg.max_containers_per_team) ∧
    portsFailInj.containerCreateFails = false ∧
    (provisionCid sampleEnv 7 1 sampleSt.nonce ∉ sampleSt.runtime) ∧
    ((start_docker_container sampleCfg sampleEnv portsFailInj 7 1
        sampleSt).1 = .db_error →
      (⟨provisionCid sampleEnv 7 1 sampleSt.nonce, 7, 1,
        provisionFlag sampleCfg sampleEnv sampleSt.nonce⟩ : Container) ∈
        (start_docker_container sampleCfg sampleEnv portsFailInj 7 1
          sampleSt).2.reg.containers ∧
      (start_docker_container sampleCfg sampleEnv portsFailInj 7 1
        sampleSt).2.reg.containers ≠ sampleSt.reg.containers ∧
      provisionCid sampleEnv 7 1 sampleSt.nonce ∉
        (start_docker_container sampleCfg sampleEnv portsFailInj 7 1
          sampleSt).2.runtime) :=
  ⟨by decide, by decide, by decide, rfl, by decide,
    persistence_failure_keeps_instance_row sampleCfg sampleEnv portsFailInj
      7 1 sampleSt sampleProblem (by decide) (by decide) (by decide) rfl
      (by decide)⟩

end Pwncore
